import Mathlib

/-!
Shallow embedding of the tulu-game catcher game (extended, menu-driven
variant), translated from `src/config.ts` / `src/entities.ts` /
`src/game.ts` / `src/input.ts`.

Conventions:
* JavaScript numbers are modelled as `ℚ` (positions, times, speeds) or `ℤ`
  (score, lives, character index).
* `Math.random()` draws are modelled by an explicit stream of rationals
  (`List ℚ`), consumed in exactly the order the source calls
  `Math.random()` (short-circuit evaluation preserved).
* `state.lastBombTime = -Infinity` is modelled as `Option ℚ` with `none`
  standing for `-Infinity`: the only use is the comparison
  `t - lastBombTime < cooldown`, which is `false` at `-Infinity`.
* Mutation of the single session state is explicit state passing; the
  input flags cleared by the state machine are returned alongside.
-/

/-- `GAME_CONFIG` from `config.ts`. -/
structure GameConfig where
  width : ℚ
  height : ℚ
  backgroundColor : String
  targetFPS : ℚ
  initialLives : ℤ
deriving DecidableEq, Repr

def GAME_CONFIG : GameConfig :=
  { width := 700, height := 500, backgroundColor := "#1a1b26", targetFPS := 60, initialLives := 3 }

/-- Upper bound for how many items can spawn during a single frame (`config.ts`). -/
def MAX_SPAWNS_PER_FRAME : ℕ := 2

/-- Base probability for rare items when a non-bomb spawns (`config.ts`). -/
def RARE_ITEM_CHANCE : ℚ := 15/100

/-- `ItemTypeConfig` from `config.ts`; `isHazard?: boolean` is a `Bool`
defaulting to `false`, optional width/height are `Option ℚ`. -/
structure ItemTypeConfig where
  id : String
  spritePath : Option String
  scoreValue : ℤ
  spawnWeight : ℚ
  width : Option ℚ := none
  height : Option ℚ := none
  baseFallSpeed : ℚ
  isHazard : Bool := false
deriving DecidableEq, Repr, Inhabited

/-- Entries of `ITEM_TYPES` from `config.ts` (extended variant), named
individually so proofs can refer to them. -/
def itemA_cfg : ItemTypeConfig :=
  { id := "itemA", spritePath := some "/assets/items/itemA.png", scoreValue := 1,
    spawnWeight := 1, width := some 32, height := some 32, baseFallSpeed := 80 }

def itemD_cfg : ItemTypeConfig :=
  { id := "itemD", spritePath := some "/assets/items/itemD.png", scoreValue := 2,
    spawnWeight := 1, width := some 32, height := some 32, baseFallSpeed := 80 }

def itemB_cfg : ItemTypeConfig :=
  { id := "itemB", spritePath := some "/assets/items/itemB.png", scoreValue := 1,
    spawnWeight := 1, width := some 32, height := some 32, baseFallSpeed := 80 }

def itemF_cfg : ItemTypeConfig :=
  { id := "itemF", spritePath := some "/assets/items/itemF.png", scoreValue := 2,
    spawnWeight := 1, width := some 32, height := some 32, baseFallSpeed := 80 }

def itemC_cfg : ItemTypeConfig :=
  { id := "itemC", spritePath := some "/assets/items/itemC.png", scoreValue := 1,
    spawnWeight := 1, width := some 32, height := some 32, baseFallSpeed := 80 }

def itemE_cfg : ItemTypeConfig :=
  { id := "itemE", spritePath := some "/assets/items/itemE.png", scoreValue := 2,
    spawnWeight := 1, width := some 32, height := some 32, baseFallSpeed := 80 }

def itemG_cfg : ItemTypeConfig :=
  { id := "itemG", spritePath := some "/assets/items/itemG.png", scoreValue := 1,
    spawnWeight := 1, width := some 32, height := some 32, baseFallSpeed := 80 }

def itemH_cfg : ItemTypeConfig :=
  { id := "itemH", spritePath := some "/assets/items/itemH.png", scoreValue := 2,
    spawnWeight := 1, width := some 32, height := some 32, baseFallSpeed := 80 }

def bomb_cfg : ItemTypeConfig :=
  { id := "bomb", spritePath := some "/assets/items/bomb.png", scoreValue := 0,
    spawnWeight := 1, width := some 32, height := some 32, baseFallSpeed := 85,
    isHazard := true }

/-- `ITEM_TYPES` from `config.ts` (extended variant: 8 normal items plus the bomb). -/
def ITEM_TYPES : List ItemTypeConfig :=
  [itemA_cfg, itemD_cfg, itemB_cfg, itemF_cfg, itemC_cfg, itemE_cfg, itemG_cfg, itemH_cfg,
   bomb_cfg]

/-- `DifficultyKeyframe` from `config.ts`. -/
structure DifficultyKeyframe where
  time : ℚ
  spawnRate : ℚ
  speedMultiplier : ℚ
deriving DecidableEq, Repr, Inhabited

/-- `DIFFICULTY_CURVE` from `config.ts`. -/
def DIFFICULTY_CURVE : List DifficultyKeyframe :=
  [ { time := 0, spawnRate := 6/10, speedMultiplier := 8/10 },
    { time := 30, spawnRate := 12/10, speedMultiplier := 1 },
    { time := 60, spawnRate := 18/10, speedMultiplier := 12/10 },
    { time := 90, spawnRate := 24/10, speedMultiplier := 14/10 },
    { time := 120, spawnRate := 3, speedMultiplier := 16/10 } ]

/-- Return type of `getDifficulty`. -/
structure Difficulty where
  spawnRate : ℚ
  speedMultiplier : ℚ
deriving DecidableEq, Repr

/-- The body of the interpolation branch of `getDifficulty`:
`f = (t - a.time) / (b.time - a.time)` and both fields lerped by `f`. -/
def lerpSeg (a b : DifficultyKeyframe) (t : ℚ) : Difficulty :=
  let f := (t - a.time) / (b.time - a.time)
  { spawnRate := a.spawnRate + (b.spawnRate - a.spawnRate) * f,
    speedMultiplier := a.speedMultiplier + (b.speedMultiplier - a.speedMultiplier) * f }

/-- The `for` loop of `getDifficulty`: scan consecutive keyframe pairs
`(a, b)` and return the first segment with `a.time ≤ t ≤ b.time`. -/
def findSeg (t : ℚ) : DifficultyKeyframe → List DifficultyKeyframe → Option Difficulty
  | _, [] => none
  | a, b :: rest =>
    if a.time ≤ t ∧ t ≤ b.time then some (lerpSeg a b t) else findSeg t b rest

/-- `getDifficulty` from `config.ts`. The empty-curve case cannot occur for
the configured `DIFFICULTY_CURVE`; it is given a harmless value. -/
def getDifficulty (t : ℚ) : Difficulty :=
  match DIFFICULTY_CURVE with
  | [] => { spawnRate := 0, speedMultiplier := 0 }
  | first :: rest =>
    if t ≤ 0 then { spawnRate := first.spawnRate, speedMultiplier := first.speedMultiplier }
    else
      match findSeg t first rest with
      | some d => d
      | none =>
        let last := List.getLastD rest first
        { spawnRate := last.spawnRate, speedMultiplier := last.speedMultiplier }

/-- `CharacterConfig` from `config.ts`. -/
structure CharacterConfig where
  id : String
  name : String
  spritePath : Option String
  color : String
deriving DecidableEq, Repr, Inhabited

/-- `CHARACTERS` from `config.ts`. -/
def CHARACTERS : List CharacterConfig :=
  [ { id := "playerA", name := "Wiebke", spritePath := some "/assets/players/playerA.png", color := "#4fd1c5" },
    { id := "playerB", name := "Kathi", spritePath := some "/assets/players/playerB.png", color := "#fbd38d" },
    { id := "playerC", name := "Anne", spritePath := some "/assets/players/playerC.png", color := "#f687b3" },
    { id := "playerD", name := "Hannah", spritePath := some "/assets/players/playerD.png", color := "#9f7aea" } ]

/-- `Rect` from `entities.ts`. -/
structure Rect where
  x : ℚ
  y : ℚ
  width : ℚ
  height : ℚ
deriving DecidableEq, Repr

/-- `GameScreen` from `entities.ts` (extended variant). -/
inductive GameScreen where
  | start
  | characterSelect
  | playing
  | gameOver
deriving DecidableEq, Repr

/-- `Player` from `entities.ts` (extends `Rect`). -/
structure Player where
  x : ℚ
  y : ℚ
  width : ℚ
  height : ℚ
  speed : ℚ
  color : String
  character : CharacterConfig
deriving DecidableEq, Repr

def Player.toRect (p : Player) : Rect :=
  { x := p.x, y := p.y, width := p.width, height := p.height }

/-- `FallingItem` from `entities.ts` (extends `Rect`). -/
structure FallingItem where
  x : ℚ
  y : ℚ
  width : ℚ
  height : ℚ
  vy : ℚ
  type : ItemTypeConfig
deriving DecidableEq, Repr

def FallingItem.toRect (it : FallingItem) : Rect :=
  { x := it.x, y := it.y, width := it.width, height := it.height }

/-- `MissEffect` from `entities.ts`. -/
structure MissEffect where
  x : ℚ
  y : ℚ
  radius : ℚ
  timer : ℚ
  maxTimer : ℚ
deriving DecidableEq, Repr

/-- `GameState` from `entities.ts` (extended variant). -/
structure GameState where
  screen : GameScreen
  player : Option Player
  selectedCharacterIndex : ℤ
  score : ℤ
  lives : ℤ
  elapsedTime : ℚ
  spawnAccumulator : ℚ
  items : List FallingItem
  missEffects : List MissEffect
  lastBombTime : Option ℚ
  lastSpawnX : ℚ
deriving DecidableEq, Repr

/-- `InputState` from `input.ts`. -/
structure InputState where
  left : Bool
  right : Bool
  confirm : Bool
  restart : Bool
  back : Bool
deriving DecidableEq, Repr

/-- `createPlayer` from `entities.ts` (extended variant: 50×100, speed 300). -/
def createPlayer (character : CharacterConfig) (canvasWidth canvasHeight : ℚ) : Player :=
  let width : ℚ := 50
  let height : ℚ := 100
  { x := canvasWidth / 2 - width / 2, y := canvasHeight - height - 4,
    width := width, height := height, speed := 300,
    color := character.color, character := character }

/-- `Math.sign`. -/
def mathSign (x : ℚ) : ℚ := if 0 < x then 1 else if x < 0 then -1 else 0

/-- `createFallingItem` from `entities.ts` (extended variant). `r` is the
`Math.random()` draw; `lastSpawnX = none` models the argument being absent
(`lastSpawnX != null` is false). Every `ℚ` is finite, so
`Number.isFinite(lastSpawnX)` always holds for a present argument. -/
def createFallingItem (type : ItemTypeConfig) (canvasWidth : ℚ) (r : ℚ)
    (lastSpawnX : Option ℚ) : FallingItem :=
  let width := type.width.getD 12
  let height := type.height.getD 12
  let margin : ℚ := 12
  let minX := margin
  let maxX := canvasWidth - width - margin
  let x := r * (maxX - minX) + minX
  let x :=
    match lastSpawnX with
    | none => x
    | some lsx =>
      let maxStep := canvasWidth * (35/100)
      let delta := x - lsx
      if maxStep < |delta| then
        max minX (min maxX (lsx + mathSign delta * maxStep))
      else x
  { x := x, y := -height, width := width, height := height,
    vy := type.baseFallSpeed, type := type }

/-- `aabbIntersect` from `entities.ts`: not separated on either axis
(separation comparisons are strict, so touching counts as intersecting). -/
def aabbIntersect (a b : Rect) : Bool :=
  !(decide (a.x + a.width < b.x) || decide (a.x > b.x + b.width) ||
    decide (a.y + a.height < b.y) || decide (a.y > b.y + b.height))

/-- One `Math.random()` draw from the explicit stream. An exhausted stream
yields `0` (claims quantify over all streams, so this is just one outcome). -/
def drawRand : List ℚ → ℚ × List ℚ
  | [] => (0, [])
  | r :: rest => (r, rest)

/-- The rare-item roll at the end of `pickItemType` (`game.ts`): if a rare
item exists, draw once and compare against `RARE_ITEM_CHANCE`. Returns the
chosen item, the (unchanged) last-bomb time and the remaining stream. -/
def pickRare (base : ItemTypeConfig) (rare : Option ItemTypeConfig)
    (lastBombTime : Option ℚ) (rs : List ℚ) : ItemTypeConfig × Option ℚ × List ℚ :=
  match rare with
  | some rr =>
    let (r, rs2) := drawRand rs
    (if r < RARE_ITEM_CHANCE then rr else base, lastBombTime, rs2)
  | none => (base, lastBombTime, rs)

/-- The per-character (base id, rare id) table at the top of `pickItemType`
(`game.ts`): the `let baseId = 'itemA'; let rareId = 'itemE'` defaults
overridden for indices 1, 2, 3. -/
def pickIds (idx : ℤ) : String × String :=
  if idx = 1 then ("itemB", "itemF")
  else if idx = 2 then ("itemC", "itemD")
  else if idx = 3 then ("itemG", "itemH")
  else ("itemA", "itemE")

/-- The `bombChance` computation of `pickItemType` (`game.ts`): zero before
5 s of elapsed time, a linear ramp from 3% to 9% over the next 45 s clamped
to [0, 9%], and forced to zero within the 1.2 s cooldown after the previous
bomb spawn (`lastBombTime = none` models `-Infinity`: never on cooldown). -/
def bombChanceAt (t : ℚ) (lastBombTime : Option ℚ) : ℚ :=
  let bombCooldown : ℚ := 12/10
  match ITEM_TYPES.find? (fun it => it.id == "bomb" && it.isHazard) with
  | none => 0
  | some _ =>
    if 5 ≤ t then
      let ramp := min 1 ((t - 5) / 45)
      let c := 3/100 + ramp * (9/100 - 3/100)
      let c := min (9/100) (max 0 c)
      let onCooldown :=
        match lastBombTime with
        | none => false
        | some lb => decide (t - lb < bombCooldown)
      if onCooldown then 0 else c
    else 0

/-- `pickItemType` from `game.ts` (extended variant). `idx` is
`state.selectedCharacterIndex`, `t` is `state.elapsedTime`, `lastBombTime`
is `state.lastBombTime` (`none` = `-Infinity`). Returns the picked item
type, the updated `lastBombTime` and the remaining random stream. The
short-circuit `bombChance > 0 && Math.random() < bombChance` is preserved:
no draw is consumed when `bombChance = 0`. -/
def pickItemType (idx : ℤ) (t : ℚ) (lastBombTime : Option ℚ) (rs : List ℚ) :
    ItemTypeConfig × Option ℚ × List ℚ :=
  let ids := pickIds idx
  let base := (ITEM_TYPES.find? (fun it => it.id == ids.1)).getD (ITEM_TYPES.headD default)
  let rare := ITEM_TYPES.find? (fun it => it.id == ids.2)
  let bomb := ITEM_TYPES.find? (fun it => it.id == "bomb" && it.isHazard)
  let bombChance := bombChanceAt t lastBombTime
  if 0 < bombChance then
    let (r, rs1) := drawRand rs
    if r < bombChance then (bomb.getD default, some t, rs1)
    else pickRare base rare lastBombTime rs1
  else pickRare base rare lastBombTime rs

/-- State threaded through the spawn `while` loop of `updatePlaying`. -/
structure SpawnState where
  spawnAccumulator : ℚ
  items : List FallingItem
  lastBombTime : Option ℚ
  lastSpawnX : ℚ
  rands : List ℚ
deriving DecidableEq, Repr

/-- The spawn `while` loop of `updatePlaying` (`game.ts`, extended variant):
`while (accumulator ≥ interval && spawnsThisFrame < MAX_SPAWNS_PER_FRAME)`.
`fuel` is `MAX_SPAWNS_PER_FRAME - spawnsThisFrame`; `interval = none`
models an infinite spawn interval (`spawnRate = 0`), whose comparison is
always false. `t` is the already-advanced elapsed time and `mult` the
current speed multiplier. -/
def spawnLoop (idx : ℤ) (t mult : ℚ) (interval : Option ℚ) :
    ℕ → SpawnState → SpawnState
  | 0, st => st
  | fuel + 1, st =>
    match interval with
    | none => st
    | some iv =>
      if iv ≤ st.spawnAccumulator then
        let (type, lastBombTime, rs1) := pickItemType idx t st.lastBombTime st.rands
        let (r, rs2) := drawRand rs1
        let item0 := createFallingItem type GAME_CONFIG.width r (some st.lastSpawnX)
        let item := { item0 with vy := item0.vy * mult }
        spawnLoop idx t mult interval fuel
          { spawnAccumulator := st.spawnAccumulator - iv,
            items := st.items ++ [item],
            lastBombTime := lastBombTime,
            lastSpawnX := item.x,
            rands := rs2 }
      else st

/-- `item.y += item.vy * dt`, the per-item movement in the item loop. -/
def moveItem (item : FallingItem) (dt : ℚ) : FallingItem :=
  { item with y := item.y + item.vy * dt }

/-- Accumulator of the `for (const item of state.items)` loop of
`updatePlaying`. `broke` records that the loop executed `break`. -/
structure LoopAcc where
  score : ℤ
  lives : ℤ
  screen : GameScreen
  missEffects : List MissEffect
  remaining : List FallingItem
  broke : Bool
deriving DecidableEq, Repr

/-- The miss effect pushed when a non-hazard item reaches the ground. -/
def mkMissEffect (item : FallingItem) (groundY : ℚ) : MissEffect :=
  { x := item.x + item.width / 2, y := groundY - 5,
    radius := max item.width item.height * (6/10), timer := 3/10, maxTimer := 3/10 }

/-- The body of one iteration of the item loop of `updatePlaying` (extended
variant), acting on the already-moved item. Priority as in the source:
player collision (hazard ends the round with lives forced to 0 and a
`break`; otherwise score and consume), then ground contact (a missed
non-hazard item runs `lives -= 1`, pushes a miss effect, and the
`lives <= 0` check ends the round with a `break`; hazard items on the
ground are simply removed), else the item survives. -/
def itemStepMoved (player : Player) (groundY : ℚ) (acc : LoopAcc) (it : FallingItem) :
    LoopAcc :=
  if acc.broke then acc
  else if aabbIntersect player.toRect it.toRect then
    if it.type.isHazard then
      { acc with lives := 0, screen := GameScreen.gameOver, broke := true }
    else
      { acc with score := acc.score + it.type.scoreValue }
  else if groundY ≤ it.y + it.height then
    if it.type.isHazard then acc
    else if acc.lives - 1 ≤ 0 then
      { acc with lives := acc.lives - 1,
                 missEffects := acc.missEffects ++ [mkMissEffect it groundY],
                 screen := GameScreen.gameOver, broke := true }
    else
      { acc with lives := acc.lives - 1,
                 missEffects := acc.missEffects ++ [mkMissEffect it groundY] }
  else { acc with remaining := acc.remaining ++ [it] }

/-- One iteration of the item loop: `item.y += item.vy * dt` happens first
in the source, then the moved item is resolved. After a `break`
(`acc.broke`), remaining iterations do nothing, so the loop is a fold of
this step. -/
def itemStep (player : Player) (dt groundY : ℚ) (acc : LoopAcc) (item : FallingItem) :
    LoopAcc :=
  itemStepMoved player groundY acc (moveItem item dt)

/-- The whole item loop of `updatePlaying` as a fold of `itemStep`. -/
def itemLoop (player : Player) (dt groundY : ℚ) (items : List FallingItem)
    (acc : LoopAcc) : LoopAcc :=
  items.foldl (itemStep player dt groundY) acc

/-- `createInitialState` from `game.ts` (extended variant):
`lastBombTime = -Infinity` is `none`. -/
def createInitialState : GameState :=
  { screen := GameScreen.start,
    player := none,
    selectedCharacterIndex := 0,
    score := 0,
    lives := GAME_CONFIG.initialLives,
    elapsedTime := 0,
    spawnAccumulator := 0,
    items := [],
    missEffects := [],
    lastBombTime := none,
    lastSpawnX := GAME_CONFIG.width / 2 }

/-- `beginPlay` from `game.ts` (extended variant). `CHARACTERS[idx]` is total
in the model via `getD`; every reachable index is in range. -/
def beginPlay (s : GameState) : GameState :=
  let character := CHARACTERS.getD s.selectedCharacterIndex.toNat default
  { s with
    player := some (createPlayer character GAME_CONFIG.width GAME_CONFIG.height),
    screen := GameScreen.playing,
    score := 0,
    lives := GAME_CONFIG.initialLives,
    elapsedTime := 0,
    spawnAccumulator := 0,
    items := [],
    missEffects := [],
    lastBombTime := none,
    lastSpawnX := GAME_CONFIG.width / 2 }

/-- `updateCharacterSelect` from `game.ts`: cycle with wrap-around using
JavaScript remainder (`Int.tmod` is truncated remainder, as in JS), clear
the consumed flag, and `confirm` starts a round via `beginPlay`. -/
def updateCharacterSelect (s : GameState) (input : InputState) :
    GameState × InputState :=
  let (s, input) :=
    if input.left then
      ({ s with selectedCharacterIndex :=
           (s.selectedCharacterIndex - 1 + (CHARACTERS.length : ℤ)).tmod (CHARACTERS.length : ℤ) },
       { input with left := false })
    else (s, input)
  let (s, input) :=
    if input.right then
      ({ s with selectedCharacterIndex :=
           (s.selectedCharacterIndex + 1).tmod (CHARACTERS.length : ℤ) },
       { input with right := false })
    else (s, input)
  if input.confirm then (beginPlay s, { input with confirm := false })
  else (s, input)

/-- The final writeback at the end of `updatePlaying` (`game.ts`): store the
moved player, the item-loop results (screen, score, lives, surviving items),
the spawn-scheduler state, and age-and-prune the miss effects. -/
def applyFrameResult (s : GameState) (player : Player) (elapsedTime : ℚ) (sp : SpawnState)
    (res : LoopAcc) (dt : ℚ) : GameState :=
  { s with
    player := some player,
    screen := res.screen,
    score := res.score,
    lives := res.lives,
    elapsedTime := elapsedTime,
    spawnAccumulator := sp.spawnAccumulator,
    items := res.remaining,
    missEffects := (res.missEffects.map (fun fx => { fx with timer := fx.timer - dt })).filter
      (fun fx => decide (0 < fx.timer)),
    lastBombTime := sp.lastBombTime,
    lastSpawnX := sp.lastSpawnX }

/-- `updatePlaying` from `game.ts` (extended variant), as a function of the
state, the input flags, the frame delta `dt` and the random stream. -/
def updatePlaying (s : GameState) (input : InputState) (dt : ℚ) (rs : List ℚ) :
    GameState :=
  match s.player with
  | none => s
  | some player =>
    let dir : ℚ := (if input.right then 1 else 0) - (if input.left then 1 else 0)
    let player := { player with
      x := max 0 (min (GAME_CONFIG.width - player.width) (player.x + dir * player.speed * dt)) }
    let elapsedTime := s.elapsedTime + dt
    let diff := getDifficulty elapsedTime
    let interval : Option ℚ := if 0 < diff.spawnRate then some (1 / diff.spawnRate) else none
    let sp := spawnLoop s.selectedCharacterIndex elapsedTime diff.speedMultiplier interval
      MAX_SPAWNS_PER_FRAME
      { spawnAccumulator := s.spawnAccumulator + dt,
        items := s.items,
        lastBombTime := s.lastBombTime,
        lastSpawnX := s.lastSpawnX,
        rands := rs }
    let groundY := GAME_CONFIG.height - 10
    let res := itemLoop player dt groundY sp.items
      { score := s.score, lives := s.lives, screen := s.screen,
        missEffects := s.missEffects, remaining := [], broke := false }
    applyFrameResult s player elapsedTime sp res dt

/-- `updateGameOver` from `game.ts` (extended variant): `restart` takes
precedence over `back`; `back` re-creates the initial state (whose screen is
`start`) keeping the selected character index. -/
def updateGameOver (s : GameState) (input : InputState) : GameState × InputState :=
  if input.restart then (beginPlay s, { input with restart := false })
  else if input.back then
    ({ createInitialState with selectedCharacterIndex := s.selectedCharacterIndex },
     { input with back := false })
  else (s, input)

/-- The per-frame `update` dispatcher from `game.ts` (extended variant). -/
def update (s : GameState) (input : InputState) (dt : ℚ) (rs : List ℚ) :
    GameState × InputState :=
  match s.screen with
  | GameScreen.start => (s, input)
  | GameScreen.characterSelect => updateCharacterSelect s input
  | GameScreen.playing => (updatePlaying s input dt rs, input)
  | GameScreen.gameOver => updateGameOver s input

/-- `setScreen` from `game.ts`. -/
def setScreen (s : GameState) (screen : GameScreen) : GameState :=
  { s with screen := screen }

/-- `selectCharacter` from `game.ts`: a no-op for out-of-range indices. -/
def selectCharacter (s : GameState) (index : ℤ) : GameState :=
  if 0 ≤ index ∧ index < (CHARACTERS.length : ℤ) then
    { s with selectedCharacterIndex := index }
  else s

/-- Session states reachable from the initial state by frames (with
arbitrary input flags, frame delta and random draws) and by the UI action
callbacks of `startGame` (`onStart`/`onBackToCharacterSelect` call
`setScreen _ characterSelect`, `onSelectCharacter` calls `selectCharacter`,
`onStartGame`/`onRestart` call `beginPlay`). -/
inductive Reachable : GameState → Prop where
  | init : Reachable createInitialState
  | frame {s : GameState} (hs : Reachable s) (input : InputState) (dt : ℚ) (rs : List ℚ) :
      Reachable (update s input dt rs).1
  | uiScreen {s : GameState} (hs : Reachable s) :
      Reachable (setScreen s GameScreen.characterSelect)
  | uiSelect {s : GameState} (hs : Reachable s) (i : ℤ) : Reachable (selectCharacter s i)
  | uiBegin {s : GameState} (hs : Reachable s) : Reachable (beginPlay s)

/-! ### Helper lemmas -/

theorem spawnLoop_items_length (idx : ℤ) (t mult : ℚ) (interval : Option ℚ) :
    ∀ (fuel : ℕ) (st : SpawnState),
      (spawnLoop idx t mult interval fuel st).items.length ≤ st.items.length + fuel := by
  intro fuel
  induction fuel with
  | zero => intro st; simp [spawnLoop]
  | succ n ih =>
    intro st
    rw [spawnLoop.eq_def]
    cases interval with
    | none => simp
    | some iv =>
      by_cases h : iv ≤ st.spawnAccumulator
      · simp only [h, if_true]
        refine le_trans (ih _) ?_
        simp
        omega
      · simp only [h, if_false]
        omega

/-! ### C2 -/

/-- C2 counterexample: the rectangles `(0,0,10,10)` and `(10,0,10,10)` share
only the touching vertical edge `a.x + a.width = b.x` (with overlapping
y-ranges), yet `aabbIntersect` returns `true`, not `false` as the claim
states: touching edges count as overlap, because the separation comparisons
of the source are strict. -/
theorem c2_counterexample :
    (⟨0, 0, 10, 10⟩ : Rect).x + (⟨0, 0, 10, 10⟩ : Rect).width = (⟨10, 0, 10, 10⟩ : Rect).x ∧
      aabbIntersect ⟨0, 0, 10, 10⟩ ⟨10, 0, 10, 10⟩ = true := by
  with_unfolding_all decide

/-- C2 (amended): `aabbIntersect(a, b)` returns `true` for every pair of
axis-aligned rectangles (with nonnegative widths) sharing a touching edge
`a.x + a.width = b.x` with overlapping y-ranges: touching edges count as
overlap, since the source's separation comparisons are strict. -/
theorem c2_touching_edges_intersect (a b : Rect)
    (hwa : 0 ≤ a.width) (hwb : 0 ≤ b.width)
    (hx : a.x + a.width = b.x)
    (hy1 : b.y ≤ a.y + a.height) (hy2 : a.y ≤ b.y + b.height) :
    aabbIntersect a b = true := by
  simp only [aabbIntersect, Bool.not_eq_true', Bool.or_eq_false_iff,
    decide_eq_false_iff_not, not_lt, gt_iff_lt]
  refine ⟨⟨⟨?_, ?_⟩, ?_⟩, ?_⟩ <;> linarith

/-- C2 witness: a concrete touching pair on which the amended theorem
evaluates. -/
theorem c2_witness : aabbIntersect ⟨0, 0, 5, 5⟩ ⟨5, 1, 4, 4⟩ = true :=
  c2_touching_edges_intersect ⟨0, 0, 5, 5⟩ ⟨5, 1, 4, 4⟩ (by norm_num) (by norm_num)
    (by norm_num) (by norm_num) (by norm_num)

/-! ### C5 -/

/-- C5: a single run of the spawn scheduler of the extended playing-state
update — for any character index, elapsed time, speed multiplier, spawn
interval (including the infinite one), prior accumulator value, item list
and random stream — appends at most `MAX_SPAWNS_PER_FRAME = 2` new falling
items to the items collection. -/
theorem c5_spawn_cap (idx : ℤ) (t mult : ℚ) (interval : Option ℚ) (st : SpawnState) :
    (spawnLoop idx t mult interval MAX_SPAWNS_PER_FRAME st).items.length ≤
      st.items.length + MAX_SPAWNS_PER_FRAME :=
  spawnLoop_items_length idx t mult interval MAX_SPAWNS_PER_FRAME st

/-! ### C1 -/

/-- C1 counterexample: on the `gameOver` screen with only the `back` flag
set, `updateGameOver` copies `createInitialState` over the session state —
whose screen is `start`, not `characterSelect` as the claim states. -/
theorem c1_counterexample :
    (updateGameOver { createInitialState with screen := GameScreen.gameOver }
        { left := false, right := false, confirm := false, restart := false,
          back := true }).1.screen ≠ GameScreen.characterSelect := by
  with_unfolding_all decide

/-- C1 (amended): on the `gameOver` screen, when the `back` flag is set and
the `restart` flag is not (restart takes precedence in the `if`/`else if`),
`updateGameOver` resets the entire session state to its initial values while
preserving `selectedCharacterIndex` — and the resulting screen is `start`
(the initial screen), not `characterSelect`. -/
theorem c1_back_resets_session (s : GameState) (input : InputState)
    (_hscreen : s.screen = GameScreen.gameOver)
    (hrestart : input.restart = false) (hback : input.back = true) :
    (updateGameOver s input).1 =
        { createInitialState with selectedCharacterIndex := s.selectedCharacterIndex } ∧
      (updateGameOver s input).1.screen = GameScreen.start := by
  rw [updateGameOver, hrestart, hback]
  exact ⟨rfl, rfl⟩

/-- C1 witness: a concrete game-over state with character index 2 and a
nonzero score is reset wholesale, keeping only the index. -/
theorem c1_witness :
    (updateGameOver
        { createInitialState with
            screen := GameScreen.gameOver, selectedCharacterIndex := 2, score := 57, lives := 0 }
        { left := false, right := false, confirm := false, restart := false,
          back := true }).1 =
        { createInitialState with selectedCharacterIndex := 2 } ∧
      (updateGameOver
        { createInitialState with
            screen := GameScreen.gameOver, selectedCharacterIndex := 2, score := 57, lives := 0 }
        { left := false, right := false, confirm := false, restart := false,
          back := true }).1.screen = GameScreen.start :=
  c1_back_resets_session _ _ rfl rfl rfl

/-! ### C3 -/

theorem itemStep_broke (player : Player) (dt groundY : ℚ) (acc : LoopAcc)
    (item : FallingItem) (h : acc.broke = true) :
    itemStep player dt groundY acc item = acc := by
  rw [itemStep, itemStepMoved, if_pos h]

theorem itemLoop_broke (player : Player) (dt groundY : ℚ) (items : List FallingItem)
    (acc : LoopAcc) (h : acc.broke = true) :
    itemLoop player dt groundY items acc = acc := by
  induction items with
  | nil => rfl
  | cons it rest ih =>
    rw [itemLoop, List.foldl_cons, itemStep_broke player dt groundY acc it h]
    exact ih

/-- C3: in the extended playing-state item loop, when processing reaches a
hazard item that (after this frame's movement) overlaps the player, that
same frame sets lives to 0 and the screen to `gameOver` — regardless of the
current lives value — and the loop exits immediately: the result does not
depend on the items after the hazard (`post` does not appear on the right). -/
theorem c3_hazard_stops_frame (player : Player) (dt groundY : ℚ) (acc : LoopAcc)
    (pre post : List FallingItem) (item : FallingItem)
    (hpre : (itemLoop player dt groundY pre acc).broke = false)
    (hhaz : (moveItem item dt).type.isHazard = true)
    (hhit : aabbIntersect player.toRect (moveItem item dt).toRect = true) :
    itemLoop player dt groundY (pre ++ item :: post) acc =
      { itemLoop player dt groundY pre acc with
        lives := 0, screen := GameScreen.gameOver, broke := true } := by
  unfold itemLoop
  rw [List.foldl_append, List.foldl_cons]
  have hstep : itemStep player dt groundY (itemLoop player dt groundY pre acc) item =
      { itemLoop player dt groundY pre acc with
        lives := 0, screen := GameScreen.gameOver, broke := true } := by
    rw [itemStep, itemStepMoved, if_neg (by simp [hpre]), if_pos ?_, if_pos hhaz]
    exact hhit
  rw [show List.foldl (itemStep player dt groundY) acc pre = itemLoop player dt groundY pre acc
    from rfl, hstep]
  exact itemLoop_broke player dt groundY post _ rfl

/-- Concrete fixtures for the C3 witness: the round's player, a bomb resting
on them, a second item later in the collection, and a fresh loop
accumulator with 3 lives. -/
def c3wPlayer : Player :=
  { x := 325, y := 396, width := 50, height := 100, speed := 300, color := "#4fd1c5",
    character := CHARACTERS.getD 0 default }

def c3wBomb : FallingItem :=
  { x := 330, y := 400, width := 32, height := 32, vy := 85, type := bomb_cfg }

def c3wOther : FallingItem :=
  { x := 10, y := 0, width := 32, height := 32, vy := 80, type := itemA_cfg }

def c3wAcc : LoopAcc :=
  { score := 0, lives := 3, screen := GameScreen.playing, missEffects := [], remaining := [],
    broke := false }

/-- C3 witness: with 3 lives, a bomb overlapping the player zeroes the lives,
ends the round and drops the item after it unprocessed. -/
theorem c3_witness :
    itemLoop c3wPlayer 0 490 ([] ++ c3wBomb :: [c3wOther]) c3wAcc =
      { itemLoop c3wPlayer 0 490 [] c3wAcc with
        lives := 0, screen := GameScreen.gameOver, broke := true } :=
  c3_hazard_stops_frame c3wPlayer 0 490 c3wAcc [] [c3wOther] c3wBomb
    (by with_unfolding_all decide) (by with_unfolding_all decide)
    (by with_unfolding_all decide)

/-! ### C9 -/

/-- C9: when `createFallingItem` is given a previous spawn x inside
`[margin, fieldWidth - width - margin]` (margin 12), the returned item's x
differs from that previous x by at most 35% of the field width, for every
outcome of the random draw `r` and any nonnegative field width. -/
theorem c9_spawn_jump_clamp (type : ItemTypeConfig) (canvasWidth r lsx : ℚ)
    (hcw : 0 ≤ canvasWidth) (h1 : 12 ≤ lsx)
    (h2 : lsx ≤ canvasWidth - type.width.getD 12 - 12) :
    |(createFallingItem type canvasWidth r (some lsx)).x - lsx| ≤ canvasWidth * (35/100) := by
  have hstep : (0:ℚ) ≤ canvasWidth * (35/100) := by
    have : (0:ℚ) ≤ 35/100 := by norm_num
    exact mul_nonneg hcw this
  simp only [createFallingItem]
  set w := type.width.getD 12 with hw
  set step := canvasWidth * (35/100) with hstepdef
  set x0 := r * (canvasWidth - w - 12 - 12) + 12 with hx0
  set d := x0 - lsx with hd
  by_cases hbig : step < |d|
  · rw [if_pos hbig]
    rcases lt_trichotomy 0 d with hdp | hdz | hdn
    · rw [show mathSign d = 1 from by rw [mathSign, if_pos hdp]]
      rw [abs_le]
      constructor
      · have hmin : lsx ≤ min (canvasWidth - w - 12) (lsx + 1 * step) :=
          le_min (by linarith) (by linarith)
        have := le_max_right (12:ℚ) (min (canvasWidth - w - 12) (lsx + 1 * step))
        linarith
      · have hmax : max (12:ℚ) (min (canvasWidth - w - 12) (lsx + 1 * step)) ≤ lsx + step := by
          apply max_le (by linarith)
          have := min_le_right (canvasWidth - w - 12) (lsx + 1 * step)
          linarith
        linarith
    · rw [← hdz] at hbig
      simp only [abs_zero] at hbig
      linarith
    · rw [show mathSign d = -1 from by rw [mathSign, if_neg (by linarith), if_pos hdn]]
      rw [abs_le]
      constructor
      · have hmin : lsx - step ≤ min (canvasWidth - w - 12) (lsx + -1 * step) :=
          le_min (by linarith) (by linarith)
        have := le_max_right (12:ℚ) (min (canvasWidth - w - 12) (lsx + -1 * step))
        linarith
      · have hmax : max (12:ℚ) (min (canvasWidth - w - 12) (lsx + -1 * step)) ≤ lsx := by
          apply max_le (by linarith)
          have := min_le_right (canvasWidth - w - 12) (lsx + -1 * step)
          linarith
        linarith
  · rw [if_neg hbig]
    exact le_of_not_lt hbig

/-- C9 witness: spawning at the far-left draw `r = 0` from a previous spawn
x at the field center 350 is clamped to a jump of at most `0.35 × 700`. -/
theorem c9_witness :
    |(createFallingItem itemA_cfg 700 0 (some 350)).x - 350| ≤ 700 * (35/100) :=
  c9_spawn_jump_clamp itemA_cfg 700 0 350 (by norm_num) (by norm_num)
    (by norm_num [itemA_cfg])

/-! ### C6 -/

theorem bombChanceAt_eq_zero (t : ℚ) (lbt : Option ℚ)
    (h : t < 5 ∨ ∃ lb, lbt = some lb ∧ t - lb < 12/10) :
    bombChanceAt t lbt = 0 := by
  unfold bombChanceAt
  rw [show ITEM_TYPES.find? (fun it => it.id == "bomb" && it.isHazard) = some bomb_cfg from by
    with_unfolding_all decide]
  rcases h with ht | ⟨lb, hlb, hcd⟩
  · simp only
    rw [if_neg (by linarith)]
  · subst hlb
    by_cases h5 : 5 ≤ t
    · simp only
      rw [if_pos h5, if_pos (by simpa using hcd)]
    · simp only
      rw [if_neg h5]

theorem pickRare_isHazard (base rr : ItemTypeConfig) (lbt : Option ℚ) (rs : List ℚ)
    (hb : base.isHazard = false) (hr : rr.isHazard = false) :
    (pickRare base (some rr) lbt rs).1.isHazard = false := by
  unfold pickRare
  rcases hdr : drawRand rs with ⟨r, rs2⟩
  simp only [hdr]
  split <;> assumption

/-- C6: `pickItemType` never returns the hazard item when the elapsed time
is below 5 seconds, and never within the 1.2-second cooldown window after a
previous hazard spawn, for every character index and every outcome of its
random draws. -/
theorem c6_no_early_hazard (idx : ℤ) (t : ℚ) (lbt : Option ℚ) (rs : List ℚ)
    (h : t < 5 ∨ ∃ lb, lbt = some lb ∧ t - lb < 12/10) :
    (pickItemType idx t lbt rs).1.isHazard = false := by
  have hch := bombChanceAt_eq_zero t lbt h
  simp only [pickItemType, hch, lt_self_iff_false, if_false]
  by_cases h1 : idx = 1
  · subst h1
    norm_num [pickIds]
    rw [show ITEM_TYPES.find? (fun it => it.id == "itemF") = some itemF_cfg from by
      with_unfolding_all decide]
    exact pickRare_isHazard _ _ lbt rs (by with_unfolding_all decide)
      (by with_unfolding_all decide)
  · by_cases h2 : idx = 2
    · subst h2
      norm_num [pickIds]
      rw [show ITEM_TYPES.find? (fun it => it.id == "itemD") = some itemD_cfg from by
        with_unfolding_all decide]
      exact pickRare_isHazard _ _ lbt rs (by with_unfolding_all decide)
        (by with_unfolding_all decide)
    · by_cases h3 : idx = 3
      · subst h3
        norm_num [pickIds]
        rw [show ITEM_TYPES.find? (fun it => it.id == "itemH") = some itemH_cfg from by
          with_unfolding_all decide]
        exact pickRare_isHazard _ _ lbt rs (by with_unfolding_all decide)
          (by with_unfolding_all decide)
      · simp only [pickIds, if_neg h1, if_neg h2, if_neg h3]
        rw [show ITEM_TYPES.find? (fun it => it.id == ("itemA", "itemE").2) = some itemE_cfg from by
          with_unfolding_all decide]
        exact pickRare_isHazard _ _ lbt rs (by with_unfolding_all decide)
          (by with_unfolding_all decide)

/-- C6 witness: at elapsed time 3 s (below the 5 s threshold) a hazard item
is never picked, whatever the draw. -/
theorem c6_witness : (pickItemType 0 3 none [0]).1.isHazard = false :=
  c6_no_early_hazard 0 3 none [0] (Or.inl (by norm_num))

/-! ### C7 -/

/-- C7: for every `t` strictly between two adjacent keyframes of the
configured difficulty curve, `getDifficulty t` is the exact linear
interpolation of `spawnRate` and `speedMultiplier` with fraction
`f = (t - a.time) / (b.time - a.time)` (the formula of `lerpSeg`). -/
theorem c7_difficulty_interpolation (i : ℕ) (t : ℚ)
    (hi : i + 1 < DIFFICULTY_CURVE.length)
    (ha : (DIFFICULTY_CURVE.getD i default).time < t)
    (hb : t < (DIFFICULTY_CURVE.getD (i+1) default).time) :
    getDifficulty t =
      lerpSeg (DIFFICULTY_CURVE.getD i default) (DIFFICULTY_CURVE.getD (i+1) default) t := by
  have hi4 : i < 4 := by
    have : DIFFICULTY_CURVE.length = 5 := by simp [DIFFICULTY_CURVE]
    omega
  interval_cases i <;>
    simp only [DIFFICULTY_CURVE, List.getD, List.getElem?_cons_zero, List.getElem?_cons_succ,
      Option.getD_some] at ha hb ⊢ <;>
    simp only [getDifficulty, DIFFICULTY_CURVE, findSeg] <;>
    norm_num at ha hb ⊢ <;>
    rw [if_neg (by linarith)]
  · rw [if_pos ⟨by linarith, by linarith⟩]
  · rw [if_neg (by rintro ⟨h1, h2⟩; linarith), if_pos ⟨by linarith, by linarith⟩]
  · rw [if_neg (by rintro ⟨h1, h2⟩; linarith), if_neg (by rintro ⟨h1, h2⟩; linarith),
      if_pos ⟨by linarith, by linarith⟩]
  · rw [if_neg (by rintro ⟨h1, h2⟩; linarith), if_neg (by rintro ⟨h1, h2⟩; linarith),
      if_neg (by rintro ⟨h1, h2⟩; linarith), if_pos ⟨by linarith, by linarith⟩]

/-- C7 witness: at `t = 45`, the midpoint of the keyframes `(30, 1.2, 1.0)`
and `(60, 1.8, 1.2)`, `getDifficulty` returns spawn rate 1.5 and speed
multiplier 1.1 exactly. -/
theorem c7_witness : getDifficulty 45 = { spawnRate := 15/10, speedMultiplier := 11/10 } := by
  have h := c7_difficulty_interpolation 1 45 (by simp [DIFFICULTY_CURVE])
    (by simp [DIFFICULTY_CURVE]; norm_num) (by simp [DIFFICULTY_CURVE]; norm_num)
  rw [h]
  simp only [DIFFICULTY_CURVE, List.getD, List.getElem?_cons_zero, List.getElem?_cons_succ,
    Option.getD_some, lerpSeg]
  norm_num

/-! ### C8 -/

/-- C8: `beginPlay`, from any prior session state, resets score to 0, lives
to the configured initial value, elapsed time and spawn accumulator to 0,
empties the item and miss-effect collections, resets the hazard-cooldown
tracker `lastBombTime` (to `-Infinity`, i.e. `none`) and `lastSpawnX` to the
horizontal center of the field. -/
theorem c8_beginPlay_resets (s : GameState) :
    (beginPlay s).score = 0 ∧
      (beginPlay s).lives = GAME_CONFIG.initialLives ∧
      (beginPlay s).elapsedTime = 0 ∧
      (beginPlay s).spawnAccumulator = 0 ∧
      (beginPlay s).items = [] ∧
      (beginPlay s).missEffects = [] ∧
      (beginPlay s).lastBombTime = none ∧
      (beginPlay s).lastSpawnX = GAME_CONFIG.width / 2 :=
  ⟨rfl, rfl, rfl, rfl, rfl, rfl, rfl, rfl⟩


/-! ### C4 and C10: the reachable-state invariant -/

/-- Invariant of the item-loop accumulator: while the loop has not broken
out, the round is still `playing` with at least one life; once it broke,
the round is over with exactly 0 lives. -/
abbrev LoopInv (acc : LoopAcc) : Prop :=
  (acc.broke = false → acc.screen = GameScreen.playing ∧ 1 ≤ acc.lives) ∧
  (acc.broke = true → acc.screen = GameScreen.gameOver ∧ acc.lives = 0)

theorem itemStepMoved_loopInv (player : Player) (groundY : ℚ) (acc : LoopAcc)
    (it : FallingItem) (h : LoopInv acc) :
    LoopInv (itemStepMoved player groundY acc it) := by
  obtain ⟨hnb, hb⟩ := h
  by_cases hbroke : acc.broke = true
  · rw [itemStepMoved, if_pos hbroke]
    exact ⟨hnb, hb⟩
  · have hbf : acc.broke = false := by simpa using hbroke
    obtain ⟨hscr, hlives⟩ := hnb hbf
    rw [itemStepMoved, if_neg (by simp [hbf])]
    split_ifs with h1 h2 h3 h4 h5
    · constructor
      · intro hc
        exact nomatch hc
      · intro hc
        exact ⟨rfl, rfl⟩
    · constructor
      · intro hc
        exact ⟨hscr, hlives⟩
      · intro hc
        exact absurd (hbf.symm.trans hc) Bool.false_ne_true
    · constructor
      · intro hc
        exact ⟨hscr, hlives⟩
      · intro hc
        exact absurd (hbf.symm.trans hc) Bool.false_ne_true
    · constructor
      · intro hc
        exact nomatch hc
      · intro hc
        refine ⟨rfl, ?_⟩
        show acc.lives - 1 = 0
        omega
    · constructor
      · intro hc
        refine ⟨hscr, ?_⟩
        show 1 ≤ acc.lives - 1
        omega
      · intro hc
        exact absurd (hbf.symm.trans hc) Bool.false_ne_true
    · constructor
      · intro hc
        exact ⟨hscr, hlives⟩
      · intro hc
        exact absurd (hbf.symm.trans hc) Bool.false_ne_true

theorem itemStep_loopInv (player : Player) (dt groundY : ℚ) (acc : LoopAcc)
    (item : FallingItem) (h : LoopInv acc) :
    LoopInv (itemStep player dt groundY acc item) :=
  itemStepMoved_loopInv player groundY acc (moveItem item dt) h

theorem itemLoop_loopInv (player : Player) (dt groundY : ℚ) (items : List FallingItem)
    (acc : LoopAcc) (h : LoopInv acc) :
    LoopInv (itemLoop player dt groundY items acc) := by
  induction items generalizing acc with
  | nil => exact h
  | cons it rest ih =>
    rw [itemLoop, List.foldl_cons]
    exact ih _ (itemStep_loopInv player dt groundY acc it h)

theorem loopInv_conclusions (acc : LoopAcc) (h : LoopInv acc) :
    0 ≤ acc.lives ∧ (acc.screen = GameScreen.playing → 1 ≤ acc.lives) ∧
      (acc.lives = 0 → acc.screen = GameScreen.gameOver) := by
  by_cases hbroke : acc.broke = true
  · obtain ⟨hscr, hlz⟩ := h.2 hbroke
    refine ⟨by omega, fun hpl => ?_, fun _ => hscr⟩
    rw [hscr] at hpl
    cases hpl
  · obtain ⟨hscr, hl⟩ := h.1 (by simpa using hbroke)
    exact ⟨by omega, fun _ => hl, fun hz => by omega⟩

/-- The inductive session-state invariant: lives are nonnegative (and
positive while playing) and the selected character index is in range. -/
abbrev StateInv (s : GameState) : Prop :=
  0 ≤ s.lives ∧ (s.screen = GameScreen.playing → 1 ≤ s.lives) ∧
    0 ≤ s.selectedCharacterIndex ∧ s.selectedCharacterIndex < (CHARACTERS.length : ℤ)

theorem applyFrameResult_props (s : GameState) (player : Player) (elapsedTime : ℚ)
    (sp : SpawnState) (res : LoopAcc) (dt : ℚ) (hinv : LoopInv res) :
    0 ≤ (applyFrameResult s player elapsedTime sp res dt).lives ∧
      ((applyFrameResult s player elapsedTime sp res dt).screen = GameScreen.playing →
        1 ≤ (applyFrameResult s player elapsedTime sp res dt).lives) ∧
      ((applyFrameResult s player elapsedTime sp res dt).lives = 0 →
        (applyFrameResult s player elapsedTime sp res dt).screen = GameScreen.gameOver) ∧
      (applyFrameResult s player elapsedTime sp res dt).selectedCharacterIndex =
        s.selectedCharacterIndex :=
  ⟨(loopInv_conclusions res hinv).1, (loopInv_conclusions res hinv).2.1,
    (loopInv_conclusions res hinv).2.2, rfl⟩

theorem updatePlaying_props (s : GameState) (input : InputState) (dt : ℚ) (rs : List ℚ)
    (hscr : s.screen = GameScreen.playing) (hl : 1 ≤ s.lives) :
    0 ≤ (updatePlaying s input dt rs).lives ∧
      ((updatePlaying s input dt rs).screen = GameScreen.playing →
        1 ≤ (updatePlaying s input dt rs).lives) ∧
      ((updatePlaying s input dt rs).lives = 0 →
        (updatePlaying s input dt rs).screen = GameScreen.gameOver) ∧
      (updatePlaying s input dt rs).selectedCharacterIndex = s.selectedCharacterIndex := by
  cases hp : s.player with
  | none =>
    simp only [updatePlaying, hp]
    exact ⟨by omega, fun _ => hl, fun hz => by omega, trivial⟩
  | some p =>
    simp only [updatePlaying, hp]
    apply applyFrameResult_props
    apply itemLoop_loopInv
    exact ⟨fun _ => ⟨hscr, hl⟩, fun hc => by cases hc⟩

theorem beginPlay_stateInv (s : GameState) (h : StateInv s) : StateInv (beginPlay s) := by
  refine ⟨?_, fun _ => ?_, h.2.2.1, h.2.2.2⟩
  · show (0:ℤ) ≤ GAME_CONFIG.initialLives
    decide
  · show (1:ℤ) ≤ GAME_CONFIG.initialLives
    decide

theorem cycle_stateInv (s : GameState) (h : StateInv s) (j : ℤ) (hj0 : 0 ≤ j)
    (hj4 : j < (CHARACTERS.length : ℤ)) :
    StateInv { s with selectedCharacterIndex := j } :=
  ⟨h.1, fun hsc => h.2.1 hsc, hj0, hj4⟩

theorem updateCharacterSelect_props (s : GameState) (input : InputState) (h : StateInv s) :
    StateInv (updateCharacterSelect s input).1 ∧
      ((updateCharacterSelect s input).1.lives = s.lives ∨
        (updateCharacterSelect s input).1.lives = GAME_CONFIG.initialLives) := by
  have hlen : ((CHARACTERS.length : ℤ)) = 4 := by simp [CHARACTERS]
  have hmod : ∀ a : ℤ, 0 ≤ a → 0 ≤ a.tmod (CHARACTERS.length : ℤ) ∧
      a.tmod (CHARACTERS.length : ℤ) < (CHARACTERS.length : ℤ) := by
    intro a ha
    rw [hlen, Int.tmod_eq_emod ha (by norm_num)]
    exact ⟨Int.emod_nonneg _ (by norm_num), Int.emod_lt_of_pos _ (by norm_num)⟩
  have hidx0 := h.2.2.1
  have hA := hmod (s.selectedCharacterIndex - 1 + (CHARACTERS.length : ℤ)) (by omega)
  have hB := hmod (s.selectedCharacterIndex + 1) (by omega)
  have hAB := hmod
    ((s.selectedCharacterIndex - 1 + (CHARACTERS.length : ℤ)).tmod (CHARACTERS.length : ℤ) + 1)
    (by omega)
  unfold updateCharacterSelect
  cases hL : input.left <;> cases hR : input.right <;> cases hC : input.confirm <;>
    simp only [hL, hR, hC, Bool.false_eq_true, eq_self_iff_true, if_true, if_false]
  · exact ⟨h, Or.inl trivial⟩
  · exact ⟨beginPlay_stateInv s h, Or.inr rfl⟩
  · exact ⟨cycle_stateInv s h _ hB.1 hB.2, Or.inl trivial⟩
  · exact ⟨beginPlay_stateInv _ (cycle_stateInv s h _ hB.1 hB.2), Or.inr rfl⟩
  · exact ⟨cycle_stateInv s h _ hA.1 hA.2, Or.inl trivial⟩
  · exact ⟨beginPlay_stateInv _ (cycle_stateInv s h _ hA.1 hA.2), Or.inr rfl⟩
  · exact ⟨cycle_stateInv _ (cycle_stateInv s h _ hA.1 hA.2) _ hAB.1 hAB.2,
      Or.inl trivial⟩
  · exact ⟨beginPlay_stateInv _
      (cycle_stateInv _ (cycle_stateInv s h _ hA.1 hA.2) _ hAB.1 hAB.2), Or.inr rfl⟩

theorem updateGameOver_props (s : GameState) (input : InputState) (h : StateInv s) :
    StateInv (updateGameOver s input).1 ∧
      ((updateGameOver s input).1.lives = s.lives ∨
        (updateGameOver s input).1.lives = GAME_CONFIG.initialLives) := by
  unfold updateGameOver
  cases hr : input.restart <;>
      simp only [hr, Bool.false_eq_true, eq_self_iff_true, if_true, if_false]
  · cases hb : input.back <;>
        simp only [hb, Bool.false_eq_true, eq_self_iff_true, if_true, if_false]
    · exact ⟨h, Or.inl trivial⟩
    · refine ⟨⟨?_, ?_, ?_, ?_⟩, ?_⟩
      · show (0:ℤ) ≤ GAME_CONFIG.initialLives
        decide
      · intro hc
        exact nomatch hc
      · exact h.2.2.1
      · exact h.2.2.2
      · exact Or.inr rfl
  · exact ⟨beginPlay_stateInv s h, Or.inr rfl⟩

theorem update_stateInv (s : GameState) (input : InputState) (dt : ℚ) (rs : List ℚ)
    (h : StateInv s) : StateInv (update s input dt rs).1 := by
  cases hscr : s.screen
  case start => simp only [update, hscr]; exact h
  case characterSelect => simp only [update, hscr]
                          exact (updateCharacterSelect_props s input h).1
  case playing =>
    simp only [update, hscr]
    have p := updatePlaying_props s input dt rs hscr (h.2.1 hscr)
    refine ⟨p.1, p.2.1, ?_, ?_⟩
    · rw [p.2.2.2]; exact h.2.2.1
    · rw [p.2.2.2]; exact h.2.2.2
  case gameOver => simp only [update, hscr]
                   exact (updateGameOver_props s input h).1

theorem update_lives_zero (s : GameState) (input : InputState) (dt : ℚ) (rs : List ℚ)
    (h : StateInv s) (h0 : 0 < s.lives) (hz : (update s input dt rs).1.lives = 0) :
    (update s input dt rs).1.screen = GameScreen.gameOver := by
  have hIL : GAME_CONFIG.initialLives = 3 := rfl
  cases hscr : s.screen
  case start =>
    simp only [update, hscr] at hz
    exact absurd hz (by omega)
  case characterSelect =>
    simp only [update, hscr] at hz ⊢
    rcases (updateCharacterSelect_props s input h).2 with he | he <;> rw [he] at hz <;> omega
  case playing =>
    simp only [update, hscr] at hz ⊢
    exact (updatePlaying_props s input dt rs hscr (h.2.1 hscr)).2.2.1 hz
  case gameOver =>
    simp only [update, hscr] at hz ⊢
    rcases (updateGameOver_props s input h).2 with he | he <;> rw [he] at hz <;> omega

theorem reachable_stateInv (s : GameState) (hs : Reachable s) : StateInv s := by
  induction hs with
  | init => exact ⟨by decide, fun hc => (nomatch hc), by decide, by simp [CHARACTERS, createInitialState]⟩
  | frame hs input dt rs ih => exact update_stateInv _ input dt rs ih
  | uiScreen hs ih => exact ⟨ih.1, fun hc => (nomatch hc), ih.2.2.1, ih.2.2.2⟩
  | uiSelect hs i ih =>
    unfold selectCharacter
    split_ifs with hin
    · exact ⟨ih.1, fun hc => ih.2.1 hc, hin.1, hin.2⟩
    · exact ih
  | uiBegin hs ih => exact beginPlay_stateInv _ ih

/-- C4: in every session state reachable from the initial state by frames
(arbitrary inputs, frame deltas and random draws) and UI actions, lives is
never negative; and whenever a frame takes the lives from a positive value
to 0, the screen of that same frame's result is `gameOver`. -/
theorem c4_lives_safety (s : GameState) (hs : Reachable s) :
    0 ≤ s.lives ∧ ∀ (input : InputState) (dt : ℚ) (rs : List ℚ),
      0 < s.lives → (update s input dt rs).1.lives = 0 →
      (update s input dt rs).1.screen = GameScreen.gameOver :=
  ⟨(reachable_stateInv s hs).1, fun input dt rs h0 hz =>
    update_lives_zero s input dt rs (reachable_stateInv s hs) h0 hz⟩

/-- The C4 witness's base state: start screen → UI start → confirm on the
character select, giving a fresh playing state with 3 lives. The witness
frame (dt = 6 s) spawns a bomb (ramped chance is positive at t = 6 ≥ 5 and
the first draw 0 falls below it) at x = 330 (draw 159/322), which lands on
the player in the same frame: lives drop 3 → 0 and the screen flips to
`gameOver`. -/
def c4wBase : GameState :=
  (update (setScreen createInitialState GameScreen.characterSelect)
    { left := false, right := false, confirm := true, restart := false, back := false } 0 []).1

theorem c4wBase_reachable : Reachable c4wBase :=
  Reachable.frame (Reachable.uiScreen Reachable.init) _ 0 []

theorem c4_witness :
    0 ≤ c4wBase.lives ∧
      (update c4wBase
        { left := false, right := false, confirm := false, restart := false, back := false }
        6 [0, 159/322, 1/2, 0]).1.screen = GameScreen.gameOver := by
  have h := c4_lives_safety c4wBase c4wBase_reachable
  refine ⟨h.1, h.2 _ 6 [0, 159/322, 1/2, 0] ?_ ?_⟩
  · show (0:ℤ) < c4wBase.lives
    with_unfolding_all decide
  · with_unfolding_all decide

/-- C10: every reachable session state (initial creation, character-select
cycling, `selectCharacter`, `beginPlay`, the playing update and game-over
handling are all reachability steps) keeps `selectedCharacterIndex` inside
`[0, CHARACTERS.length)`; and `selectCharacter` leaves the state unchanged
for every out-of-range index. -/
theorem c10_character_index (s : GameState) (hs : Reachable s) :
    (0 ≤ s.selectedCharacterIndex ∧ s.selectedCharacterIndex < (CHARACTERS.length : ℤ)) ∧
      ∀ i : ℤ, i < 0 ∨ (CHARACTERS.length : ℤ) ≤ i → selectCharacter s i = s := by
  refine ⟨⟨(reachable_stateInv s hs).2.2.1, (reachable_stateInv s hs).2.2.2⟩, ?_⟩
  intro i hi
  unfold selectCharacter
  rw [if_neg]
  rintro ⟨h1, h2⟩
  rcases hi with hi | hi <;> omega

theorem c10_witness :
    (0 ≤ createInitialState.selectedCharacterIndex ∧
        createInitialState.selectedCharacterIndex < (CHARACTERS.length : ℤ)) ∧
      selectCharacter createInitialState 99 = createInitialState :=
  ⟨(c10_character_index createInitialState Reachable.init).1,
    (c10_character_index createInitialState Reachable.init).2 99
      (Or.inr (by norm_num [CHARACTERS]))⟩
